import Mathlib

/-!
Verification of the `nearby-cities` geospatial proximity service.

The repository is a small Go web service.  Its core is:
  * a geohash-style GeoKey codec (the external `geohash` package:
    `Encode`, `EstimateLengthRequired`, `Distance`),
  * a proximity query engine (`findNearbyCitiesByLatLng`,
    `findNearbyCities`, the `/search` and `/` handlers),
  * a one-time spatial index builder (`prepare` / `createSpatialIndex`),
  * IP based reference-point resolution (`isPrivateIP`,
    `bytesWithinRange`, `ipToInteger`, `indexHandler`),
  * a JSON endpoint `nearby` validating `latitude`/`longitude`/`radius`
    query parameters.

Modelling conventions:
  * Go `float64` coordinates and distances are modelled as `ℚ`
    (exact real-number semantics of the arithmetic the code performs).
  * Go strings holding geohashes and request parameters are modelled as
    `List Char`; SQLite rows and tables are modelled as Lean structures
    and lists of rows.
  * `geohash.Distance` (an external haversine implementation) is passed
    to the query engine as an opaque distance-function parameter `dist`,
    exactly as the code treats it: the engine calls it once per
    candidate and only post-processes its result.
  * The SQL `LIKE 'p%'` prefix scan is modelled by a literal
    prefix test (`likeMatch`): the stored keys and the computed pattern
    are lowercase base-32 strings without wildcard characters.
  * `sort.Slice` (a deterministic, possibly unstable comparison sort)
    is modelled by a deterministic comparison sort
    (`List.insertionSort`); every guarantee proved about the ordering
    (non-decreasing `Distance`) holds for any correct comparison sort.
-/

set_option maxRecDepth 4000

namespace NearbyCities

/-! ## GeoKey codec

Modelled from the spec: the codec lives in the external
`github.com/quantonganh/geohash` package (not part of this repository's
sources).  The spec, §4.1: `Encode` interleaves successive binary
subdivisions of the longitude and latitude ranges (starting from the
full [-180,180]/[-90,90] extents, alternating longitude-first),
accumulating 5 bits per output character mapped through the standard
base-32 geohash alphabet.  The README shows the full-precision keys are
12 characters long (e.g. Hanoi ↦ "w7er8u0dtxhr"); `geohashEncode`
below reproduces those keys exactly.
-/

/-- The standard geohash base-32 alphabet: digits and lowercase letters
excluding `a`, `i`, `l`, `o`. -/
def base32Alphabet : List Char :=
  ['0','1','2','3','4','5','6','7','8','9','b','c','d','e','f','g',
   'h','j','k','m','n','p','q','r','s','t','u','v','w','x','y','z']

/-- One interleaved bit per step: halve the current longitude
(respectively latitude) range and emit whether the coordinate lies in
the upper half.  The first argument is the number of bits to produce. -/
def encodeBits (lat lng : ℚ) : Nat → ℚ → ℚ → ℚ → ℚ → Bool → List Bool
  | 0, _, _, _, _, _ => []
  | n+1, latLo, latHi, lngLo, lngHi, isLng =>
    if isLng then
      let mid := (lngLo + lngHi) / 2
      if mid ≤ lng then
        true :: encodeBits lat lng n latLo latHi mid lngHi false
      else
        false :: encodeBits lat lng n latLo latHi lngLo mid false
    else
      let mid := (latLo + latHi) / 2
      if mid ≤ lat then
        true :: encodeBits lat lng n mid latHi lngLo lngHi true
      else
        false :: encodeBits lat lng n latLo mid lngLo lngHi true

/-- Numeric value of a 5-bit group (most significant bit first). -/
def bitsVal (l : List Bool) : Nat :=
  l.foldl (fun acc b => 2 * acc + (if b then 1 else 0)) 0

/-- Split a bit list into successive groups of 5; the first argument is
the number of groups wanted. -/
def group5 : Nat → List Bool → List (List Bool)
  | 0, _ => []
  | _+1, [] => []
  | n+1, l => l.take 5 :: group5 n (l.drop 5)

/-- Modelled from the spec: `geohash.Encode(lat, lng)` at a given
precision (number of output characters). -/
def geohashEncode (lat lng : ℚ) (precision : Nat) : List Char :=
  (group5 precision (encodeBits lat lng (5 * precision) (-90) 90 (-180) 180 true)).map
    fun bits => base32Alphabet.getD (bitsVal bits) '?'

/-- Modelled from the spec and the README: the maximum precision the
codec supports; the stored full-precision GeoKeys in the README are 12
characters long. -/
def fullPrecision : Nat := 12

/-- Modelled from the spec, §4.2: geohash cell width in kilometers per
key length (lengths 1 through 12); each added character roughly
quarters the cell area. -/
def cellWidthKm : List ℚ :=
  [5009.4, 1252.3, 156.5, 39.1, 4.9, 1.2,
   0.1529, 0.0382, 0.0048, 0.0012, 0.000149, 0.0000372]

/-- Modelled from the spec: `geohash.EstimateLengthRequired(radiusKm)`
maps a desired neighborhood radius to the longest key length whose cell
size is still at least the radius (the precision whose cell dimensions
still enclose the neighborhood).  The cell widths are decreasing, so
this is the number of leading table entries that are at least
`radiusKm`; for a 100 km radius this resolves to length 3. -/
def estimateLengthRequired (radiusKm : ℚ) : Nat :=
  (cellWidthKm.takeWhile fun w => radiusKm ≤ w).length

/-- Go `math.Round`: round to the nearest integer, halves away from
zero. -/
def goRound (q : ℚ) : ℚ :=
  if q < 0 then -(((⌊-q + 1/2⌋ : ℤ) : ℚ)) else ((⌊q + 1/2⌋ : ℤ) : ℚ)

/-! ## Data model (source: `main.go` and the service variant files) -/

/-- A row of the `cities` table (the columns the queries read:
`id`, `city`, `lat`, `lng`, `admin_name`, `country`). -/
structure CityRow where
  id : Nat
  city : String
  lat : ℚ
  lng : ℚ
  admin_name : String
  country : String
deriving DecidableEq

/-- A row of the `geospatial_index` table: a `(geohash, city_id)`
pair. -/
structure IndexEntry where
  geohash : List Char
  city_id : Nat
deriving DecidableEq

/-- The read-only storage the query engine sees: the `cities` table
joined against the `geospatial_index` table. -/
structure GeoDB where
  cities : List CityRow
  geoIndex : List IndexEntry
deriving DecidableEq

/-- The Go `city` struct as populated by the query engine's row scan
(`city`, `lat`, `lng`, `admin_name`, `country`, `geohash`) plus the
computed `Distance` field. -/
structure CityResult where
  city : String
  lat : ℚ
  lng : ℚ
  admin_name : String
  country : String
  geohash : List Char
  distance : ℚ
deriving DecidableEq

/-! ## Proximity query engine (source: `findNearbyCitiesByLatLng`) -/

/-- SQL `LIKE 'pfx%'` on geohash keys: does `s` literally start with
`pfx`?  (Both sides are lowercase base-32 strings, so SQLite's
case-insensitive `LIKE` coincides with a literal prefix test, and the
pattern contains no wildcard characters.) -/
def likeMatch : List Char → List Char → Bool
  | [], _ => true
  | _ :: _, [] => false
  | a :: as, b :: bs => a == b && likeMatch as bs

/-- The SQL join
`cities c JOIN geospatial_index g ON g.city_id = c.id
 WHERE g.geohash LIKE 'pfx%'`:
all (city row, index entry) pairs whose key starts with `pfx`. -/
def joinRows (db : GeoDB) (pfx : List Char) : List (CityRow × IndexEntry) :=
  (db.geoIndex.filter fun g => likeMatch pfx g.geohash).flatMap fun g =>
    (db.cities.filter fun c => g.city_id == c.id).map fun c => (c, g)

/-- Build one scanned-and-augmented result row: copy the scanned
columns and set `Distance = math.Round(dist*100) / 100` where `dist` is
the external distance calculator (`geohash.Distance`) applied to the
reference point and the candidate. -/
def toResult (dist : ℚ → ℚ → ℚ → ℚ → ℚ) (lat lng : ℚ)
    (p : CityRow × IndexEntry) : CityResult :=
  { city := p.1.city
    lat := p.1.lat
    lng := p.1.lng
    admin_name := p.1.admin_name
    country := p.1.country
    geohash := p.2.geohash
    distance := goRound (dist lat lng p.1.lat p.1.lng * 100) / 100 }

/-- The comparison used by `sort.Slice`: ascending `Distance`. -/
def byDistance (a b : CityResult) : Prop := a.distance ≤ b.distance

instance : DecidableRel byDistance :=
  fun a b => inferInstanceAs (Decidable (a.distance ≤ b.distance))

instance : IsTotal CityResult byDistance :=
  ⟨fun a b => le_total a.distance b.distance⟩

instance : IsTrans CityResult byDistance :=
  ⟨fun _ _ _ hab hbc => le_trans hab hbc⟩

/-- Source: `findNearbyCitiesByLatLng(db, lat, lng)`.
Computes `hash = geohash.Encode(lat, lng)` and
`length = geohash.EstimateLengthRequired(100)`, retrieves every joined
row whose stored key is `LIKE hash[:length] || '%'`, computes the
rounded distance for each, and sorts ascending by distance.
`dist` is the external `geohash.Distance` calculator. -/
def findNearbyCitiesByLatLng (dist : ℚ → ℚ → ℚ → ℚ → ℚ) (db : GeoDB)
    (lat lng : ℚ) : List CityResult :=
  let hash := geohashEncode lat lng fullPrecision
  let length := estimateLengthRequired 100
  List.insertionSort byDistance
    ((joinRows db (hash.take length)).map (toResult dist lat lng))

/-! ## Name-based resolution and the `/search` handler -/

/-- The error a `database/sql` single-row lookup can produce:
`sql.ErrNoRows` (the scanned query matched no row) or any other
storage/query error. -/
inductive QueryError where
  | noRows
  | storage (msg : String)
deriving DecidableEq

/-- Source: `findNearbyCities(db, fromCity)`.  The reference point is
resolved by the external FTS query
`SELECT city, lat, lng, country FROM cities_fts WHERE cities_fts MATCH ?`;
`resolved` is the outcome of that single-row scan (`sql.ErrNoRows` when
no city matches).  A resolution error is returned unchanged; otherwise
the engine runs the proximity query from the matched city's
coordinates. -/
def findNearbyCities (dist : ℚ → ℚ → ℚ → ℚ → ℚ)
    (resolved : Except QueryError CityRow) (db : GeoDB) :
    Except QueryError (List CityResult) :=
  match resolved with
  | .error e => .error e
  | .ok c => .ok (findNearbyCitiesByLatLng dist db c.lat c.lng)

/-- The page the `/search` handler renders. -/
inductive SearchOutcome where
  /-- The `"No matching city found."` page (the `sql.ErrNoRows`
  branch). -/
  | noMatchPage
  /-- The logged-error page (`"Oops! Something went wrong. ..."`),
  carrying the underlying error. -/
  | errorPage (msg : String)
  /-- The results page: the query echoed back plus the nearby-city
  list. -/
  | resultsPage (fromCity : String) (cities : List CityResult)
deriving DecidableEq

/-- Source: `searchHandler`.  Classifies the outcome of
`findNearbyCities`: `sql.ErrNoRows` renders the
`"No matching city found."` page, any other error renders the distinct
failure page, success renders the results. -/
def searchHandler (dist : ℚ → ℚ → ℚ → ℚ → ℚ) (fromCity : String)
    (resolved : Except QueryError CityRow) (db : GeoDB) : SearchOutcome :=
  match findNearbyCities dist resolved db with
  | .error .noRows => .noMatchPage
  | .error (.storage m) => .errorPage m
  | .ok cities => .resultsPage fromCity cities

/-! ## Spatial index builder (source: `prepare` / `createSpatialIndex`) -/

/-- A raw row of the ingested `cities` CSV as the index-build
transaction scans it (`SELECT id, lat, lng FROM cities`); `none`
coordinates model a row whose `lat`/`lng` fails to scan as a float. -/
structure RawCity where
  id : Nat
  lat : Option ℚ
  lng : Option ℚ
deriving DecidableEq

/-- The database state the builder manipulates: the `migrations`
marker table, the ingested `cities` rows, and the `geospatial_index`
table. -/
structure DBState where
  migrations : List String
  citiesRaw : List RawCity
  geoIndex : List IndexEntry
deriving DecidableEq

/-- The body of the index-build transaction: scan each city row,
compute its full-precision geohash and insert `(geohash, city_id)`.
A scan error (missing coordinate) or an insert error (the
`city_id INTEGER UNIQUE` constraint) fails the whole transaction
(`none`); otherwise the accumulated table is returned. -/
def buildTx (idx : List IndexEntry) : List RawCity → Option (List IndexEntry)
  | [] => some idx
  | r :: rest =>
    match r.lat, r.lng with
    | some lat, some lng =>
      if idx.any fun e => e.city_id == r.id then none
      else buildTx (idx ++ [⟨geohashEncode lat lng fullPrecision, r.id⟩]) rest
    | _, _ => none

/-- The result of running the builder: success with the new state, or
failure with the state as left behind (the transaction rolled back). -/
inductive BuildResult where
  | ok (st : DBState)
  | failed (msg : String) (st : DBState)
deriving DecidableEq

/-- Source: `prepare` (and `createSpatialIndex` in `main.go`): if the
`'cities_table'` migration marker row exists, do nothing; otherwise
ingest the CSV into `cities` (outside any transaction), then inside a
single transaction insert every `(geohash, city_id)` pair and the
migration marker, committing all of it together or rolling all of it
back on the first error. -/
def prepare (raw : List RawCity) (st : DBState) : BuildResult :=
  if "cities_table" ∈ st.migrations then .ok st
  else
    match buildTx st.geoIndex raw with
    | none =>
      .failed "error inserting into geospatial_index" { st with citiesRaw := raw }
    | some idx =>
      .ok { st with
              citiesRaw := raw
              geoIndex := idx
              migrations := st.migrations ++ ["cities_table"] }

/-! ## IP based resolution (source: `indexHandler`, `isPrivateIP`,
`bytesWithinRange`, `ipToInteger`)

A parsed `net.IP` is modelled as its byte slice (`List Nat`): a 4-byte
IPv4 form, a 16-byte IPv6 form, or `[]` for a failed parse (Go `nil`).
-/

/-- Go `net.IP.To4`: the 4-byte form of the address, or `nil` (here
`[]`) when the address has none.  A 16-byte address has a 4-byte form
exactly when it is IPv4-mapped (ten zero bytes then `0xff 0xff`). -/
def to4 (ip : List Nat) : List Nat :=
  if ip.length = 4 then ip
  else if ip.length = 16 && ip.take 10 == List.replicate 10 0
          && ip.getD 10 0 == 255 && ip.getD 11 0 == 255 then
    ip.drop 12
  else []

/-- Source: `bytesWithinRange(b, start, end)`: iterate over the bytes
of `b`, failing as soon as one falls outside the corresponding
`[start[i], end[i]]` interval; an empty `b` (a `nil` slice) is
vacuously within range. -/
def bytesWithinRange : List Nat → List Nat → List Nat → Bool
  | [], _, _ => true
  | bi :: bs, si :: ss, ei :: es =>
    if bi < si ∨ ei < bi then false else bytesWithinRange bs ss es
  | _ :: _, _, _ => false

/-- Source: the `privateIPv4Ranges` table in `isPrivateIP`. -/
def privateIPv4Ranges : List (List Nat × List Nat) :=
  [([10, 0, 0, 0], [10, 255, 255, 255]),
   ([172, 16, 0, 0], [172, 31, 255, 255]),
   ([192, 168, 0, 0], [192, 168, 255, 255])]

/-- Source: `isPrivateIP(ip)`: the address's `To4` form is checked
byte-wise against each private range. -/
def isPrivateIP (ip : List Nat) : Bool :=
  privateIPv4Ranges.any fun r => bytesWithinRange (to4 ip) (to4 r.1) (to4 r.2)

/-- Source: `ipToInteger(ipAddr)`: fails for an unparseable address or
one with no IPv4 form; otherwise the big-endian 32-bit integer
`(b0<<24) | (b1<<16) | (b2<<8) | b3`. -/
def ipToInteger (ip : List Nat) : Option Nat :=
  match to4 ip with
  | [b0, b1, b2, b3] =>
    some (((b0 <<< 24) ||| (b1 <<< 16) ||| (b2 <<< 8) ||| b3) % 2 ^ 32)
  | _ => none

/-- A row of the `ip2location` table (numeric model of the columns the
handler reads). -/
structure IP2LocationRow where
  start_ip : Nat
  end_ip : Nat
  country : String
  region : String
  city : String
  lat : ℚ
  lng : ℚ
deriving DecidableEq

/-- The SQL lookup
`SELECT ... FROM ip2location WHERE ? BETWEEN start_ip AND end_ip
 ORDER BY end_ip LIMIT 1`. -/
def lookupIP (ipdb : List IP2LocationRow) (n : Nat) : Option IP2LocationRow :=
  ((ipdb.filter fun row => decide (row.start_ip ≤ n) && decide (n ≤ row.end_ip)).insertionSort
    fun a b => a.end_ip ≤ b.end_ip).head?

/-- The page the `/` handler renders. -/
inductive IndexOutcome where
  /-- The bare page rendered whenever resolution is abandoned. -/
  | emptyPage
  /-- The geolocated page: `"city, country"` plus nearby cities. -/
  | page (fromCity : String) (cities : List CityResult)
deriving DecidableEq

/-- The `/` handler's behaviour: whether an `ip2location` lookup was
attempted, and the rendered page. -/
structure IndexResult where
  lookupAttempted : Bool
  outcome : IndexOutcome
deriving DecidableEq

/-- Source: `indexHandler`.  The caller's parsed IP is rejected by
`isPrivateIP` before `ipToInteger` and before the `ip2location` query;
a failed integer conversion also renders the bare page; otherwise the
handler looks the integer up and, on a hit, renders the geolocated
page. -/
def indexHandler (dist : ℚ → ℚ → ℚ → ℚ → ℚ) (ip : List Nat)
    (ipdb : List IP2LocationRow) (db : GeoDB) : IndexResult :=
  if isPrivateIP ip then ⟨false, .emptyPage⟩
  else
    match ipToInteger ip with
    | none => ⟨false, .emptyPage⟩
    | some n =>
      match lookupIP ipdb n with
      | none => ⟨true, .emptyPage⟩
      | some row =>
        ⟨true, .page (row.city ++ ", " ++ row.country)
          (findNearbyCitiesByLatLng dist db row.lat row.lng)⟩

/-! ## The `/v1/cities/nearby` endpoint's parameter validation
(source: `nearby` in `main.go`) -/

/-- The numeric value of a non-empty all-digit character list. -/
def digitsVal (cs : List Char) : Nat :=
  cs.foldl (fun a c => 10 * a + (c.toNat - 48)) 0

/-- Go `strconv.ParseFloat`, restricted to the plain decimal literals
relevant here: optional sign, digits, optional fractional part; at
least one digit overall.  (Exponent, hex, `inf`/`nan` forms are not
modelled; none occur in the claims.) -/
def parseFloat (s : List Char) : Option ℚ :=
  let signAndDigits : Bool × List Char :=
    match s with
    | '-' :: t => (true, t)
    | '+' :: t => (false, t)
    | _ => (false, s)
  let neg := signAndDigits.1
  let cs := signAndDigits.2
  let signed : ℚ → ℚ := fun q => if neg then -q else q
  match cs.splitOn '.' with
  | [ipart] =>
    if ipart.isEmpty then none
    else if ipart.all Char.isDigit then some (signed (digitsVal ipart)) else none
  | [ipart, fpart] =>
    if ipart.isEmpty && fpart.isEmpty then none
    else if (ipart ++ fpart).all Char.isDigit then
      some (signed ((digitsVal ipart : ℚ) +
        (digitsVal fpart : ℚ) / ((10 ^ fpart.length : ℕ) : ℚ)))
    else none
  | _ => none

/-- What the `nearby` handler does with its three query parameters. -/
inductive NearbyOutcome where
  /-- `"Invalid latitude parameter"`, HTTP 400. -/
  | invalidLatitude
  /-- `"Invalid longitude parameter"`, HTTP 400. -/
  | invalidLongitude
  /-- `"Invalid radius parameter"`, HTTP 400. -/
  | invalidRadius
  /-- The parsed values are accepted and passed on to
  `geohash.BoundingBox` / `geohash.Encode` and the range query. -/
  | accepted (lat lng radius : ℚ)
deriving DecidableEq

/-- Source: `nearby` in `main.go`: parse `latitude`, `longitude`,
`radius` in that order; the first parse failure produces the matching
400 response; on success the handler proceeds to the bounding-box /
geohash computation with the parsed values, performing no range
validation of its own. -/
def nearby (latStr lngStr radiusStr : List Char) : NearbyOutcome :=
  match parseFloat latStr with
  | none => .invalidLatitude
  | some lat =>
    match parseFloat lngStr with
    | none => .invalidLongitude
    | some lng =>
      match parseFloat radiusStr with
      | none => .invalidRadius
      | some radius => .accepted lat lng radius

/-! ## Helper lemmas about the query engine -/

/-- Membership in the joined candidate rows, unfolded. -/
lemma mem_joinRows {db : GeoDB} {pfx : List Char} {p : CityRow × IndexEntry} :
    p ∈ joinRows db pfx ↔
      p.2 ∈ db.geoIndex ∧ likeMatch pfx p.2.geohash = true ∧
        p.1 ∈ db.cities ∧ p.2.city_id = p.1.id := by
  unfold joinRows
  simp only [List.mem_flatMap, List.mem_filter, List.mem_map]
  constructor
  · rintro ⟨g, ⟨hg, hlike⟩, c, ⟨hc, hid⟩, rfl⟩
    exact ⟨hg, hlike, hc, by simpa using hid⟩
  · rintro ⟨hg, hlike, hc, hid⟩
    exact ⟨p.2, ⟨hg, hlike⟩, p.1, ⟨hc, by simpa using hid⟩, rfl⟩

/-- Membership in the query result, unfolded: exactly the images of the
joined prefix-matching candidate rows. -/
lemma mem_findNearby {dist : ℚ → ℚ → ℚ → ℚ → ℚ} {db : GeoDB}
    {lat lng : ℚ} {r : CityResult} :
    r ∈ findNearbyCitiesByLatLng dist db lat lng ↔
      ∃ p, p ∈ joinRows db
          ((geohashEncode lat lng fullPrecision).take (estimateLengthRequired 100)) ∧
        r = toResult dist lat lng p := by
  unfold findNearbyCitiesByLatLng
  rw [(List.perm_insertionSort byDistance _).mem_iff]
  simp only [List.mem_map]
  constructor
  · rintro ⟨p, hp, rfl⟩
    exact ⟨p, hp, rfl⟩
  · rintro ⟨p, hp, rfl⟩
    exact ⟨p, hp, rfl⟩

/-! ## Claims about the proximity query engine -/

/-- C1: For every reference coordinate, the proximity query computes
`prefix = Encode(lat, lng)` truncated to `EstimateLengthRequired(100)`
characters (100 km being the query radius), and every spatial-index
entry returned as a candidate has a GeoKey that literally starts with
that prefix. -/
theorem c1_candidates_share_computed_geokey_head
    (dist : ℚ → ℚ → ℚ → ℚ → ℚ) (db : GeoDB) (lat lng : ℚ) (r : CityResult)
    (hr : r ∈ findNearbyCitiesByLatLng dist db lat lng) :
    likeMatch ((geohashEncode lat lng fullPrecision).take (estimateLengthRequired 100))
      r.geohash = true := by
  obtain ⟨p, hp, rfl⟩ := mem_findNearby.mp hr
  exact (mem_joinRows.mp hp).2.1

/-- C1 witness: a concrete query against a one-entry index returns a
candidate, and its key starts with the computed 3-character head. -/
theorem c1_witness :
    ∃ r, r ∈ findNearbyCitiesByLatLng (fun _ _ _ _ => 0)
        ⟨[⟨1, "Hanoi", 21, 105, "Ha Noi", "Vietnam"⟩],
         [⟨"w7dxmqftv7dx".data, 1⟩]⟩ 21 105 ∧
      likeMatch ((geohashEncode 21 105 fullPrecision).take
        (estimateLengthRequired 100)) r.geohash = true := by
  have hmem : (⟨"Hanoi", 21, 105, "Ha Noi", "Vietnam",
      "w7dxmqftv7dx".data, goRound (0 * 100) / 100⟩ : CityResult) ∈
      findNearbyCitiesByLatLng (fun _ _ _ _ => 0)
        ⟨[⟨1, "Hanoi", 21, 105, "Ha Noi", "Vietnam"⟩],
         [⟨"w7dxmqftv7dx".data, 1⟩]⟩ 21 105 := by
    with_unfolding_all decide
  exact ⟨_, hmem,
    c1_candidates_share_computed_geokey_head (fun _ _ _ _ => 0) _ _ _ _ hmem⟩

/-- C2: For every query, the results are sorted ascending by the
computed `Distance` field, and the output on identical input is
identical (the engine is a pure deterministic function of its input;
no tie-break beyond the comparison is defined). -/
theorem c2_results_sorted_by_distance
    (dist : ℚ → ℚ → ℚ → ℚ → ℚ) (db : GeoDB) (lat lng : ℚ) :
    List.Sorted byDistance (findNearbyCitiesByLatLng dist db lat lng) ∧
      findNearbyCitiesByLatLng dist db lat lng =
        findNearbyCitiesByLatLng dist db lat lng := by
  refine ⟨?_, rfl⟩
  unfold findNearbyCitiesByLatLng
  exact List.sorted_insertionSort byDistance _

/-- C3: No radius filtering: every candidate row whose stored GeoKey
matches the computed prefix appears in the result, whatever distance
the distance calculator reports for it (in particular when it exceeds
the 100 km query radius). -/
theorem c3_no_radius_filtering
    (dist : ℚ → ℚ → ℚ → ℚ → ℚ) (db : GeoDB) (lat lng : ℚ)
    (c : CityRow) (g : IndexEntry)
    (hc : c ∈ db.cities) (hg : g ∈ db.geoIndex) (hid : g.city_id = c.id)
    (hpfx : likeMatch ((geohashEncode lat lng fullPrecision).take
      (estimateLengthRequired 100)) g.geohash = true) :
    toResult dist lat lng (c, g) ∈ findNearbyCitiesByLatLng dist db lat lng :=
  mem_findNearby.mpr ⟨(c, g), mem_joinRows.mpr ⟨hg, hpfx, hc, hid⟩, rfl⟩

/-- C3 witness: a candidate whose reported distance (5000 km) far
exceeds the 100 km radius is still returned. -/
theorem c3_witness :
    toResult (fun _ _ _ _ => 5000) 0 0
        (⟨2, "Far", 40, 2, "Adm", "Ctry"⟩, ⟨"s00000000000".data, 2⟩) ∈
      findNearbyCitiesByLatLng (fun _ _ _ _ => 5000)
        ⟨[⟨2, "Far", 40, 2, "Adm", "Ctry"⟩], [⟨"s00000000000".data, 2⟩]⟩ 0 0 := by
  refine c3_no_radius_filtering (fun _ _ _ _ => 5000) _ 0 0 _ _ ?_ ?_ ?_ ?_
  all_goals with_unfolding_all decide

/-- C8: the `Distance` field of every returned result equals the
distance the external calculator reports for the reference point and
the candidate's own coordinates, rounded to 2 decimal places:
`math.Round(d*100) / 100`. -/
theorem c8_distance_rounded_to_2_decimals
    (dist : ℚ → ℚ → ℚ → ℚ → ℚ) (db : GeoDB) (lat lng : ℚ) (r : CityResult)
    (hr : r ∈ findNearbyCitiesByLatLng dist db lat lng) :
    r.distance = goRound (dist lat lng r.lat r.lng * 100) / 100 := by
  obtain ⟨p, _, rfl⟩ := mem_findNearby.mp hr
  rfl

/-- C8 witness: with a calculator reporting 2.247 km, the returned
`Distance` is 2.25. -/
theorem c8_witness :
    ∃ r, r ∈ findNearbyCitiesByLatLng (fun _ _ _ _ => 2247/1000)
        ⟨[⟨1, "Hanoi", 21, 105, "Ha Noi", "Vietnam"⟩],
         [⟨"w7dxmqftv7dx".data, 1⟩]⟩ 21 105 ∧
      r.distance = goRound ((fun (_ _ _ _ : ℚ) => (2247/1000 : ℚ)) 21 105
          r.lat r.lng * 100) / 100 ∧
      r.distance = 225/100 := by
  have hmem : (⟨"Hanoi", 21, 105, "Ha Noi", "Vietnam",
      "w7dxmqftv7dx".data, goRound ((2247/1000 : ℚ) * 100) / 100⟩ : CityResult) ∈
      findNearbyCitiesByLatLng (fun _ _ _ _ => 2247/1000)
        ⟨[⟨1, "Hanoi", 21, 105, "Ha Noi", "Vietnam"⟩],
         [⟨"w7dxmqftv7dx".data, 1⟩]⟩ 21 105 := by
    with_unfolding_all decide
  refine ⟨_, hmem,
    c8_distance_rounded_to_2_decimals (fun _ _ _ _ => 2247/1000) _ _ _ _ hmem, ?_⟩
  with_unfolding_all decide

/-! ## Helper lemmas about the index-build transaction -/

/-- The transaction only appends: entries present when it starts are
present when it commits. -/
lemma buildTx_mem_of_mem {raw : List RawCity} {idx idx' : List IndexEntry}
    (h : buildTx idx raw = some idx') {e : IndexEntry} (he : e ∈ idx) :
    e ∈ idx' := by
  induction raw generalizing idx with
  | nil =>
    simp only [buildTx, Option.some.injEq] at h
    exact h ▸ he
  | cons r rest ih =>
    rcases r with ⟨rid, rlat, rlng⟩
    cases rlat with
    | none => simp [buildTx] at h
    | some lat =>
      cases rlng with
      | none => simp [buildTx] at h
      | some lng =>
        simp only [buildTx] at h
        split at h
        · exact absurd h (by simp)
        · exact ih h (List.mem_append_left _ he)

/-- A committed transaction inserted one entry per scanned city row:
every raw row has well-formed coordinates and its
`(geohash, city_id)` pair is in the final table. -/
lemma buildTx_complete {raw : List RawCity} {idx idx' : List IndexEntry}
    (h : buildTx idx raw = some idx') :
    ∀ r ∈ raw, ∃ lat lng, r.lat = some lat ∧ r.lng = some lng ∧
      (⟨geohashEncode lat lng fullPrecision, r.id⟩ : IndexEntry) ∈ idx' := by
  induction raw generalizing idx with
  | nil => intro r hr; cases hr
  | cons r rest ih =>
    intro r' hr'
    rcases r with ⟨rid, rlat, rlng⟩
    cases rlat with
    | none => simp [buildTx] at h
    | some lat =>
      cases rlng with
      | none => simp [buildTx] at h
      | some lng =>
        simp only [buildTx] at h
        split at h
        · exact absurd h (by simp)
        · rcases List.mem_cons.mp hr' with rfl | hr'
          · exact ⟨lat, lng, rfl, rfl,
              buildTx_mem_of_mem h
                (List.mem_append_right _ (List.mem_singleton.mpr rfl))⟩
          · exact ih h r' hr'

/-- The `city_id INTEGER UNIQUE` constraint: a committed transaction
leaves at most one entry per `CityID` when it started that way. -/
lemma buildTx_nodup {raw : List RawCity} {idx idx' : List IndexEntry}
    (h : buildTx idx raw = some idx')
    (hn : (idx.map IndexEntry.city_id).Nodup) :
    (idx'.map IndexEntry.city_id).Nodup := by
  induction raw generalizing idx with
  | nil =>
    simp only [buildTx, Option.some.injEq] at h
    exact h ▸ hn
  | cons r rest ih =>
    rcases r with ⟨rid, rlat, rlng⟩
    cases rlat with
    | none => simp [buildTx] at h
    | some lat =>
      cases rlng with
      | none => simp [buildTx] at h
      | some lng =>
        simp only [buildTx] at h
        split at h
        · exact absurd h (by simp)
        · next hany =>
          refine ih h ?_
          have hnotin : rid ∉ idx.map IndexEntry.city_id := by
            simp only [List.any_eq_true, beq_iff_eq, not_exists] at hany
            intro hmem
            obtain ⟨e, he, hee⟩ := List.mem_map.mp hmem
            exact hany e ⟨he, hee⟩
          simp only [List.map_append, List.map_cons, List.map_nil]
          exact List.Nodup.append hn (List.nodup_singleton rid)
            (by simpa [List.disjoint_singleton] using hnotin)

/-! ## Claims about the index builder -/

/-- C4: After any successful build, the migration marker is present, so
running the build again — with any raw data — is an exact no-op (no
ingestion, no index writes: the returned state is the input state), and
the spatial index holds at most one entry per `CityID`. -/
theorem c4_second_build_is_noop_and_no_duplicates
    (raw raw2 : List RawCity) (st0 st : DBState)
    (h0 : (st0.geoIndex.map IndexEntry.city_id).Nodup)
    (hrun : prepare raw st0 = .ok st) :
    prepare raw2 st = .ok st ∧ (st.geoIndex.map IndexEntry.city_id).Nodup := by
  unfold prepare at hrun
  split at hrun
  · next hmark =>
    cases hrun
    rw [prepare, if_pos hmark]
    exact ⟨rfl, h0⟩
  · next hmark =>
    split at hrun
    · exact absurd hrun (by simp)
    · next idx hbuild =>
      cases hrun
      constructor
      · rw [prepare, if_pos (by
          exact List.mem_append_right _ (List.mem_singleton.mpr rfl))]
      · exact buildTx_nodup hbuild h0

/-- C4 witness: build once from an empty store, then run the builder
again with fresh raw data: the state is unchanged and the index has no
duplicate `CityID`s. -/
theorem c4_witness :
    ((([] : List IndexEntry)).map IndexEntry.city_id).Nodup ∧
    prepare [] ⟨[], [], []⟩ = .ok ⟨["cities_table"], [], []⟩ ∧
    (prepare [⟨7, some 1, some 2⟩] ⟨["cities_table"], [], []⟩ =
        .ok ⟨["cities_table"], [], []⟩ ∧
      (((⟨["cities_table"], [], []⟩ : DBState)).geoIndex.map
        IndexEntry.city_id).Nodup) :=
  ⟨by decide, by decide,
    c4_second_build_is_noop_and_no_duplicates [] [⟨7, some 1, some 2⟩] ⟨[], [], []⟩
      ⟨["cities_table"], [], []⟩ (by decide) (by decide)⟩

/-- C5: With the marker absent, the builder is all-or-nothing about the
index entries and the marker: on failure the index is exactly as
before and the marker is still unset (the transaction rolled back); on
success the marker is set and every scanned city's
`(geohash, city_id)` entry is in the index (all committed together). -/
theorem c5_build_transaction_atomic
    (raw : List RawCity) (st : DBState)
    (hm : "cities_table" ∉ st.migrations) :
    (∀ msg st', prepare raw st = .failed msg st' →
        st'.geoIndex = st.geoIndex ∧ "cities_table" ∉ st'.migrations) ∧
    (∀ st', prepare raw st = .ok st' →
        "cities_table" ∈ st'.migrations ∧
        ∀ r ∈ raw, ∃ lat lng, r.lat = some lat ∧ r.lng = some lng ∧
          (⟨geohashEncode lat lng fullPrecision, r.id⟩ : IndexEntry) ∈
            st'.geoIndex) := by
  unfold prepare
  rw [if_neg hm]
  constructor
  · intro msg st' h
    split at h
    · cases h
      exact ⟨rfl, hm⟩
    · exact absurd h (by simp)
  · intro st' h
    split at h
    · exact absurd h (by simp)
    · next idx hbuild =>
      cases h
      exact ⟨List.mem_append_right _ (List.mem_singleton.mpr rfl),
        buildTx_complete hbuild⟩

/-- C5 witness: building one well-formed city row from an empty store
succeeds, sets the marker, and commits the row's entry. -/
theorem c5_witness :
    ("cities_table" ∉ (([] : List String))) ∧
    ((∀ msg st', prepare [⟨1, some 1, some 2⟩] ⟨[], [], []⟩ = .failed msg st' →
        st'.geoIndex = (⟨[], [], []⟩ : DBState).geoIndex ∧
          "cities_table" ∉ st'.migrations) ∧
      (∀ st', prepare [⟨1, some 1, some 2⟩] ⟨[], [], []⟩ = .ok st' →
        "cities_table" ∈ st'.migrations ∧
        ∀ r ∈ [(⟨1, some 1, some 2⟩ : RawCity)], ∃ lat lng,
          r.lat = some lat ∧ r.lng = some lng ∧
          (⟨geohashEncode lat lng fullPrecision, r.id⟩ : IndexEntry) ∈
            st'.geoIndex)) :=
  ⟨by decide, c5_build_transaction_atomic [⟨1, some 1, some 2⟩] ⟨[], [], []⟩
    (by decide)⟩

/-! ## Claims about the `/search` handler's error taxonomy -/

/-- C7: a name query matching no city (the `sql.ErrNoRows` outcome of
the FTS row scan) renders the distinguished `"No matching city found."`
page; every other lookup error renders the distinct failure page, and
the two outcomes are never conflated; success renders the results. -/
theorem c7_no_match_never_conflated_with_storage_error
    (dist : ℚ → ℚ → ℚ → ℚ → ℚ) (q : String) (db : GeoDB) :
    searchHandler dist q (.error .noRows) db = .noMatchPage ∧
    (∀ msg, searchHandler dist q (.error (.storage msg)) db = .errorPage msg) ∧
    (∀ msg, SearchOutcome.errorPage msg ≠ SearchOutcome.noMatchPage) ∧
    (∀ c, searchHandler dist q (.ok c) db =
      .resultsPage q (findNearbyCitiesByLatLng dist db c.lat c.lng)) :=
  ⟨rfl, fun _ => rfl, fun _ h => SearchOutcome.noConfusion h, fun _ => rfl⟩

/-! ## Claims about IP based resolution -/

/-- Stepping `bytesWithinRange` past one in-range byte. -/
lemma bytesWithinRange_cons {bi si ei : Nat} {bs ss es : List Nat}
    (h1 : si ≤ bi) (h2 : bi ≤ ei) :
    bytesWithinRange (bi :: bs) (si :: ss) (ei :: es) =
      bytesWithinRange bs ss es := by
  rw [show bytesWithinRange (bi :: bs) (si :: ss) (ei :: es) =
    if bi < si ∨ ei < bi then false else bytesWithinRange bs ss es from rfl]
  rw [if_neg (by omega)]

/-- C6: every caller address in a private IPv4 range (10.0.0.0/8,
172.16.0.0/12, 192.168.0.0/16) is rejected by `isPrivateIP` before
`ipToInteger` and before any `ip2location` lookup: the handler renders
the bare page with no lookup attempted, never a geolocated page. -/
theorem c6_private_ip_rejected_before_lookup
    (dist : ℚ → ℚ → ℚ → ℚ → ℚ) (ipdb : List IP2LocationRow) (db : GeoDB)
    (a b c d : Nat) (hb : b ≤ 255) (hc : c ≤ 255) (hd : d ≤ 255)
    (hpriv : a = 10 ∨ (a = 172 ∧ 16 ≤ b ∧ b ≤ 31) ∨ (a = 192 ∧ b = 168)) :
    indexHandler dist [a, b, c, d] ipdb db = ⟨false, .emptyPage⟩ := by
  have h4 : to4 [a, b, c, d] = [a, b, c, d] := by simp [to4]
  have hp : isPrivateIP [a, b, c, d] = true := by
    simp only [isPrivateIP, privateIPv4Ranges, List.any_cons, List.any_nil,
      Bool.or_eq_true, h4]
    rcases hpriv with rfl | ⟨rfl, hb1, hb2⟩ | ⟨rfl, rfl⟩
    · exact Or.inl (by
        rw [show to4 [10, 0, 0, 0] = [10, 0, 0, 0] from rfl,
          show to4 [10, 255, 255, 255] = [10, 255, 255, 255] from rfl,
          bytesWithinRange_cons le_rfl le_rfl,
          bytesWithinRange_cons (Nat.zero_le _) hb,
          bytesWithinRange_cons (Nat.zero_le _) hc,
          bytesWithinRange_cons (Nat.zero_le _) hd]
        rfl)
    · exact Or.inr (Or.inl (by
        rw [show to4 [172, 16, 0, 0] = [172, 16, 0, 0] from rfl,
          show to4 [172, 31, 255, 255] = [172, 31, 255, 255] from rfl,
          bytesWithinRange_cons le_rfl le_rfl,
          bytesWithinRange_cons hb1 hb2,
          bytesWithinRange_cons (Nat.zero_le _) hc,
          bytesWithinRange_cons (Nat.zero_le _) hd]
        rfl))
    · exact Or.inr (Or.inr (Or.inl (by
        rw [show to4 [192, 168, 0, 0] = [192, 168, 0, 0] from rfl,
          show to4 [192, 168, 255, 255] = [192, 168, 255, 255] from rfl,
          bytesWithinRange_cons le_rfl le_rfl,
          bytesWithinRange_cons le_rfl le_rfl,
          bytesWithinRange_cons (Nat.zero_le _) hc,
          bytesWithinRange_cons (Nat.zero_le _) hd]
        rfl)))
  simp [indexHandler, hp]

/-- C6 witness: `192.168.1.1`, with a matching `ip2location` row
available, still renders the bare page with no lookup attempted. -/
theorem c6_witness :
    (168 ≤ 255 ∧ 1 ≤ 255) ∧
    indexHandler (fun _ _ _ _ => 0) [192, 168, 1, 1]
        [⟨0, 4294967295, "Vietnam", "Ha Noi", "Hanoi", 21, 105⟩] ⟨[], []⟩ =
      ⟨false, .emptyPage⟩ :=
  ⟨⟨by decide, by decide⟩,
    c6_private_ip_rejected_before_lookup (fun _ _ _ _ => 0)
      [⟨0, 4294967295, "Vietnam", "Ha Noi", "Hanoi", 21, 105⟩] ⟨[], []⟩
      192 168 1 1 (by decide) (by decide) (by decide)
      (Or.inr (Or.inr ⟨rfl, rfl⟩))⟩

/-- C10: an address with no IPv4 form (`To4` returns `nil`, e.g. any
plain IPv6 address) makes `bytesWithinRange` run over an empty byte
slice, which is vacuously in range, so `isPrivateIP` returns `true`
and the index handler renders the bare page without attempting any
lookup. -/
theorem c10_non_ipv4_vacuously_private
    (dist : ℚ → ℚ → ℚ → ℚ → ℚ) (ip : List Nat)
    (ipdb : List IP2LocationRow) (db : GeoDB)
    (h : to4 ip = []) :
    isPrivateIP ip = true ∧
      indexHandler dist ip ipdb db = ⟨false, .emptyPage⟩ := by
  have hp : isPrivateIP ip = true := by
    simp [isPrivateIP, privateIPv4Ranges, h, bytesWithinRange]
  exact ⟨hp, by simp [indexHandler, hp]⟩

/-- C10 witness: the IPv6 loopback `::1` (16 bytes, not IPv4-mapped)
is treated as private and gets the bare page, no lookup. -/
theorem c10_witness :
    to4 [0, 0, 0, 0, 0, 0, 0, 0, 0, 0, 0, 0, 0, 0, 0, 1] = [] ∧
    (isPrivateIP [0, 0, 0, 0, 0, 0, 0, 0, 0, 0, 0, 0, 0, 0, 0, 1] = true ∧
      indexHandler (fun _ _ _ _ => 0)
          [0, 0, 0, 0, 0, 0, 0, 0, 0, 0, 0, 0, 0, 0, 0, 1]
          [⟨0, 4294967295, "Vietnam", "Ha Noi", "Hanoi", 21, 105⟩] ⟨[], []⟩ =
        ⟨false, .emptyPage⟩) :=
  ⟨by decide,
    c10_non_ipv4_vacuously_private (fun _ _ _ _ => 0) _
      [⟨0, 4294967295, "Vietnam", "Ha Noi", "Hanoi", 21, 105⟩] ⟨[], []⟩
      (by decide)⟩

/-! ## Claim C9: parameter validation of the `nearby` endpoint -/

/-- C9 counterexample: the out-of-range latitude `200` parses as a
float and is NOT rejected: the handler accepts it and proceeds to the
bounding-box / geohash-encode computation, contrary to the claim that
it is rejected with a validation error. -/
theorem c9_counterexample :
    nearby "200".data "105".data "100".data =
      NearbyOutcome.accepted 200 105 100 ∧
    nearby "200".data "105".data "100".data ≠ NearbyOutcome.invalidLatitude := by
  constructor
  · with_unfolding_all decide
  · with_unfolding_all decide

/-- C9 (amended): the `nearby` handler's validation is parse-only: a
latitude parameter that fails to parse as a float is rejected with the
validation error, while any parsed value — including an out-of-range
latitude such as 200 — is silently accepted and passed on to
bounding-box/encode with no range check. -/
theorem c9_amended_validation_is_parse_only
    (latStr lngStr radiusStr : List Char) :
    (parseFloat latStr = none →
      nearby latStr lngStr radiusStr = .invalidLatitude) ∧
    (∀ lat lng radius, parseFloat latStr = some lat →
      parseFloat lngStr = some lng → parseFloat radiusStr = some radius →
      nearby latStr lngStr radiusStr = .accepted lat lng radius) := by
  constructor
  · intro h
    simp [nearby, h]
  · intro lat lng radius h1 h2 h3
    simp [nearby, h1, h2, h3]

/-- C9 witness: `"abc"` fails the parse and is rejected; `"200"`
parses and is accepted. -/
theorem c9_witness :
    (parseFloat "abc".data = none ∧
      nearby "abc".data "105".data "100".data = .invalidLatitude) ∧
    (parseFloat "200".data = some 200 ∧
      nearby "200".data "105".data "100".data = .accepted 200 105 100) := by
  have hnone : parseFloat "abc".data = none := by with_unfolding_all decide
  have h1 : parseFloat "200".data = some (200 : ℚ) := by with_unfolding_all decide
  have h2 : parseFloat "105".data = some (105 : ℚ) := by with_unfolding_all decide
  have h3 : parseFloat "100".data = some (100 : ℚ) := by with_unfolding_all decide
  exact ⟨⟨hnone,
      (c9_amended_validation_is_parse_only "abc".data "105".data "100".data).1
        hnone⟩,
    ⟨h1,
      (c9_amended_validation_is_parse_only "200".data "105".data "100".data).2
        200 105 100 h1 h2 h3⟩⟩

end NearbyCities
